import Mathlib

/-!
Shallow embedding of the ChimeNet MicroPython node
(`src/micropython/chime_node/main.py`).

The node's behaviour is modelled as pure functions over an explicit
`NodeState`.  Inbound MQTT payloads are modelled after `ujson.loads`:
a payload that fails JSON decoding is represented as `none`, a decoded
payload as `some (j : Json)`.  Python-level dynamic behaviour that the
handlers depend on (truthiness, `dict` lookup raising `KeyError` or
`TypeError`, iteration over lists / strings / dict keys, dictionary
membership raising `TypeError` on unhashable values) is modelled
explicitly on `Json`.  Monotonic millisecond clocks (`time.ticks_ms`)
are modelled as `Nat`; the 30-bit wraparound of MicroPython ticks is
outside the model.  Outbound effects are returned as data: buzzer PWM
commands as a `List BuzzCmd`, published response messages as a list of
`(response_kind, original_chime_id)` pairs, and status publication as a
`Bool` flag.  A caught exception inside `handle_ring_request` (the
`except` branch at the end of the function) is recorded in the `failed`
field of the result.
-/

/-- A decoded JSON value, the possible results of `ujson.loads`.
Numbers are restricted to integers (no claim depends on float payloads). -/
inductive Json where
  | null : Json
  | bool : Bool → Json
  | num : Int → Json
  | str : String → Json
  | arr : List Json → Json
  | obj : List (String × Json) → Json

/-- Python truthiness of a decoded JSON value (`if notes:`, `if self.pending_chime_id:`). -/
def jTruthy : Json → Bool
  | .null => false
  | .bool b => b
  | .num n => !(n == 0)
  | .str s => !(s == "")
  | .arr l => !(l.isEmpty)
  | .obj l => !(l.isEmpty)

/-- `data[k]` for a decoded JSON value: a lookup that succeeds only on an
object holding the key; on any other value the Python subscript raises
(`TypeError` / `KeyError`), modelled as `none`. -/
def jLookup : Json → String → Option Json
  | .obj kvs, k => kvs.lookup k
  | _, _ => none

/-- `data.get(k, default)` on a decoded JSON object. -/
def jGet (j : Json) (k : String) (dflt : Json) : Json :=
  (jLookup j k).getD dflt

/-- Python iteration over a decoded JSON value: a list yields its elements, a
string yields its one-character substrings, a dict yields its keys; numbers,
booleans and `None` are not iterable (`TypeError`), modelled as `none`. -/
def jIter : Json → Option (List Json)
  | .arr l => some l
  | .str s => some (s.toList.map (fun c => Json.str c.toString))
  | .obj kvs => some (kvs.map (fun kv => Json.str kv.1))
  | _ => none

namespace LcgpMode

/-- `LcgpMode.DO_NOT_DISTURB = 0` -/
def DO_NOT_DISTURB : Nat := 0

/-- `LcgpMode.AVAILABLE = 1` -/
def AVAILABLE : Nat := 1

/-- `LcgpMode.CHILL_GRINDING = 2` -/
def CHILL_GRINDING : Nat := 2

/-- `LcgpMode.GRINDING = 3` -/
def GRINDING : Nat := 3

end LcgpMode

/-- The `NOTE_FREQUENCIES` table: note name to frequency in Hz. -/
def NOTE_FREQUENCIES : List (String × Nat) :=
  [("C4", 262), ("D4", 294), ("E4", 330), ("F4", 349), ("G4", 392),
   ("A4", 440), ("B4", 494), ("C5", 523), ("D5", 587), ("E5", 659)]

/-- Frequency lookup in `NOTE_FREQUENCIES` (string keys). -/
def noteFreq (s : String) : Option Nat := NOTE_FREQUENCIES.lookup s

/-- `note in NOTE_FREQUENCIES` for an arbitrary decoded JSON element of the
`notes` value: a string is looked up; other hashable values (numbers,
booleans, `None`) are simply not members; a list or dict element is
unhashable and raises `TypeError`, modelled as `.error ()`. -/
def noteMember : Json → Except Unit (Option Nat)
  | .str s => .ok (noteFreq s)
  | .arr _ => .error ()
  | .obj _ => .error ()
  | _ => .ok none

/-- The `DEFAULT_CHIME` pattern: (note name, duration in ms). -/
def DEFAULT_CHIME : List (String × Nat) :=
  [("C4", 300), ("E4", 300), ("G4", 300), ("C5", 500)]

/-- One buzzer PWM command issued by `play_chime`. -/
inductive BuzzCmd where
  | setFreq : Nat → BuzzCmd
  | setDuty : Nat → BuzzCmd
  | sleep : Nat → BuzzCmd

/-- The command sequence for one note: set frequency, 50% duty, hold for the
duration, duty off, 50 ms gap (`main.py` lines 225-230 / 235-240). -/
def playTone (freq dur : Nat) : List BuzzCmd :=
  [.setFreq freq, .setDuty 512, .sleep dur, .setDuty 0, .sleep 50]

/-- The explicit-notes loop of `play_chime` (`for note in notes:`): each
recognised note plays for a fixed 300 ms; unrecognised hashable values are
skipped; an unhashable element aborts the loop with a raised `TypeError`
(second component `false`), keeping the commands already issued. -/
def playNotes : List Json → List BuzzCmd × Bool
  | [] => ([], true)
  | j :: rest =>
    match noteMember j with
    | .error _ => ([], false)
    | .ok none => playNotes rest
    | .ok (some freq) =>
      let r := playNotes rest
      (playTone freq 300 ++ r.1, r.2)

/-- The default-pattern loop of `play_chime`
(`for note, duration in DEFAULT_CHIME:`). -/
def playDefault : List (String × Nat) → List BuzzCmd
  | [] => []
  | (n, d) :: rest =>
    match noteFreq n with
    | some freq => playTone freq d ++ playDefault rest
    | none => playDefault rest

/-- `ChimeNode.play_chime(notes, chords)`: with a truthy `notes` value the
explicit-notes loop runs over its Python iteration (failing with `TypeError`
if `notes` is not iterable); otherwise the default pattern plays.  On normal
completion the final `self.buzzer.duty(0)` is issued.  The second component
is `false` when an exception escaped `play_chime` (to be caught by the caller). -/
def play_chime (notes : Json) : List BuzzCmd × Bool :=
  if jTruthy notes then
    match jIter notes with
    | none => ([], false)
    | some items =>
      let r := playNotes items
      if r.2 then (r.1 ++ [.setDuty 0], true) else r
  else
    (playDefault DEFAULT_CHIME ++ [.setDuty 0], true)

/-- The duty value left on the buzzer after a command sequence, starting
from duty `d`. -/
def finalDuty : List BuzzCmd → Nat → Nat
  | [], d => d
  | .setDuty d' :: rest, _ => finalDuty rest d'
  | .setFreq _ :: rest, d => finalDuty rest d
  | .sleep _ :: rest, d => finalDuty rest d

/-- The mutable state of a `ChimeNode` (the fields of `__init__` that the
steady-state handlers read or write; hardware handles, identity strings and
the MQTT session are omitted as they are never mutated by the handlers). -/
structure NodeState where
  current_mode : Nat
  last_button_press : Nat
  button_pressed : Bool
  led_state : Bool
  last_led_toggle : Nat
  pending_chime_id : Json
  chime_response_deadline : Nat

/-- The initial state set up by `ChimeNode.__init__`. -/
def initState : NodeState :=
  { current_mode := LcgpMode.AVAILABLE
    last_button_press := 0
    button_pressed := false
    led_state := false
    last_led_toggle := 0
    pending_chime_id := Json.str ""
    chime_response_deadline := 0 }

/-- The gating decision of `handle_ring_request` lines 177-200:
`(should_chime, should_auto_respond, auto_response_type)` as a function of
the current mode (the initialisers at lines 178-180 give the final `else`). -/
def gate (mode : Nat) : Bool × Bool × String :=
  if mode = LcgpMode.DO_NOT_DISTURB then (false, false, "")
  else if mode = LcgpMode.AVAILABLE then (true, false, "")
  else if mode = LcgpMode.CHILL_GRINDING then (true, false, "")
  else if mode = LcgpMode.GRINDING then (true, true, "Positive")
  else (false, false, "")

/-- Result of handling one inbound ring request: the state afterwards, the
buzzer commands issued, the response messages published (kind,
`original_chime_id`), and whether the surrounding `except` branch fired. -/
structure RingResult where
  state : NodeState
  cmds : List BuzzCmd
  responses : List (String × Json)
  failed : Bool

/-- The state update performed inside the mode dispatch of
`handle_ring_request`: only the `CHILL_GRINDING` branch writes state,
recording the pending auto-response (lines 194-195). -/
def pendingUpdate (s : NodeState) (now : Nat) (request_chime_id : Json) : NodeState :=
  if s.current_mode = LcgpMode.CHILL_GRINDING then
    { s with pending_chime_id := request_chime_id
             chime_response_deadline := now + 10000 }
  else s

/-- `ChimeNode.handle_ring_request(message)`.  The argument is the result of
`ujson.loads` (`none` = decode failure).  Field extraction `data["chime_id"]`
and `data["user"]` fails on a non-object or a missing key; any failure inside
the `try` block is caught, leaving whatever state was already written (under
`CHILL_GRINDING` the pending response is recorded before `play_chime` runs).
`send_response` catches its own publish errors, so a response is always
counted as emitted when reached. -/
def handle_ring_request (s : NodeState) (now : Nat) (msg : Option Json) : RingResult :=
  match msg with
  | none => ⟨s, [], [], true⟩
  | some data =>
    match jLookup data "chime_id" with
    | none => ⟨s, [], [], true⟩
    | some request_chime_id =>
      match jLookup data "user" with
      | none => ⟨s, [], [], true⟩
      | some _request_user =>
        let g := gate s.current_mode
        let s1 := pendingUpdate s now request_chime_id
        if g.1 then
          let notes := jGet data "notes" (Json.arr [])
          let r := play_chime notes
          if r.2 then
            if g.2.1 then ⟨s1, r.1, [(g.2.2, request_chime_id)], false⟩
            else ⟨s1, r.1, [], false⟩
          else ⟨s1, r.1, [], true⟩
        else ⟨s1, [], [], false⟩

/-- Result of one `handle_button` poll: state, responses published, and
whether `publish_status` was invoked. -/
structure ButtonResult where
  state : NodeState
  responses : List (String × Json)
  statusPublished : Bool

/-- `ChimeNode.handle_button()`.  `button_state` is the already-inverted
active-LOW line reading (`not self.user_button.value()`).  A qualifying new
press (line pressed, stored flag clear, more than 500 ms since the last
recognised press) either answers a truthy pending chime positively, or
advances the mode modulo 4 and republishes status.  A release clears the
stored flag. -/
def handle_button (s : NodeState) (now : Nat) (button_state : Bool) : ButtonResult :=
  if button_state = true ∧ s.button_pressed = false ∧
      (500 : Int) < (now : Int) - (s.last_button_press : Int) then
    let s1 := { s with button_pressed := true, last_button_press := now }
    if jTruthy s.pending_chime_id then
      ⟨{ s1 with pending_chime_id := Json.str "", chime_response_deadline := 0 },
        [("Positive", s.pending_chime_id)], false⟩
    else
      ⟨{ s1 with current_mode := (s1.current_mode + 1) % 4 }, [], true⟩
  else if button_state = false ∧ s.button_pressed = true then
    ⟨{ s with button_pressed := false }, [], false⟩
  else
    ⟨s, [], false⟩

/-- `ChimeNode.handle_pending_responses()`: when the pending chime id is
truthy and the clock has passed the deadline, publish the deferred
"Positive" response and clear the pending state. -/
def handle_pending_responses (s : NodeState) (now : Nat) : NodeState × List (String × Json) :=
  if jTruthy s.pending_chime_id ∧ s.chime_response_deadline < now then
    ({ s with pending_chime_id := Json.str "", chime_response_deadline := 0 },
      [("Positive", s.pending_chime_id)])
  else (s, [])

/-- LED toggle step shared by the three blinking modes of `handle_status_led`. -/
def ledToggle (s : NodeState) (now : Nat) (interval : Nat) : NodeState :=
  if (interval : Int) < (now : Int) - (s.last_led_toggle : Int) then
    { s with led_state := !s.led_state, last_led_toggle := now }
  else s

/-- `ChimeNode.handle_status_led()`: blink interval by mode; `GRINDING`
forces the LED solid on and touches no state. -/
def handle_status_led (s : NodeState) (now : Nat) : NodeState :=
  if s.current_mode = LcgpMode.DO_NOT_DISTURB then ledToggle s now 2000
  else if s.current_mode = LcgpMode.AVAILABLE then ledToggle s now 1000
  else if s.current_mode = LcgpMode.CHILL_GRINDING then ledToggle s now 500
  else s

/-- `ChimeNode.mqtt_callback(topic, msg)`: a topic ending in `/ring` is
forwarded to `handle_ring_request`; any other message is ignored. -/
def mqtt_callback (s : NodeState) (now : Nat) (topic : String) (msg : Option Json) : RingResult :=
  if topic.endsWith "/ring" then handle_ring_request s now msg
  else ⟨s, [], [], false⟩

/-- The `mode_names` table of `handle_button` (line 267). -/
def mode_names_button : List String :=
  ["DO_NOT_DISTURB", "AVAILABLE", "CHILL_GRINDING", "GRINDING"]

/-- The `mode_names` table of `publish_status` (line 365). -/
def mode_names_status : List String :=
  ["DoNotDisturb", "Available", "ChillGrinding", "Grinding"]

/-- States reachable from startup through the steady-state handlers
(the periodic status timer and `publish_*` operations mutate no state). -/
inductive Reachable : NodeState → Prop where
  | init : Reachable initState
  | ring (s : NodeState) (now : Nat) (msg : Option Json) :
      Reachable s → Reachable (handle_ring_request s now msg).state
  | button (s : NodeState) (now : Nat) (b : Bool) :
      Reachable s → Reachable (handle_button s now b).state
  | timeout (s : NodeState) (now : Nat) :
      Reachable s → Reachable (handle_pending_responses s now).1
  | led (s : NodeState) (now : Nat) :
      Reachable s → Reachable (handle_status_led s now)

/-- A node sitting in `CHILL_GRINDING` mode with no pending response. -/
def sChill : NodeState := { initState with current_mode := LcgpMode.CHILL_GRINDING }

/-- A node with a pending chime response outstanding. -/
def sPendBtn : NodeState :=
  { initState with pending_chime_id := Json.str "Y", chime_response_deadline := 5000 }

/-- A well-formed ring request payload for chime id `X`. -/
def dataX : Json := Json.obj [("chime_id", Json.str "X"), ("user", Json.str "u")]

/-- A well-formed ring request payload for chime id `Y`. -/
def dataY : Json := Json.obj [("chime_id", Json.str "Y"), ("user", Json.str "u")]

/-- A ring request whose required fields are present but whose `notes` value
is a number: `play_chime` then raises `TypeError` on `for note in notes`. -/
def ringBadNotes : Json :=
  Json.obj [("chime_id", Json.str "X"), ("user", Json.str "u"), ("notes", Json.num 5)]

/-- The state after one qualifying button press from startup
(`AVAILABLE` advances to `CHILL_GRINDING`). -/
def sBtn : NodeState := (handle_button initState 1000 true).state

/-- The state after that press followed by a ring request for `Y`:
a pending response for `Y` is outstanding. -/
def sPendR : NodeState := (handle_ring_request sBtn 2000 (some dataY)).state

/-- Four full press/release cycles of the button starting from mode `m`,
each press separated by more than the 500 ms debounce window. -/
def fourAdvances (m : Nat) : Nat :=
  (handle_button (handle_button (handle_button (handle_button (handle_button
    (handle_button (handle_button { initState with current_mode := m }
      1000 true).state 1500 false).state 2000 true).state 2500 false).state
      3000 true).state 3500 false).state 4000 true).state.current_mode

/-- The state invariant maintained by the handlers: the mode stays a valid
`LcgpMode` value, and a truthy pending chime id can only exist while the
mode is `CHILL_GRINDING` (the only branch that records one). -/
def NodeInv (s : NodeState) : Prop :=
  s.current_mode < 4 ∧
    (jTruthy s.pending_chime_id = true → s.current_mode = LcgpMode.CHILL_GRINDING)

lemma pendingUpdate_mode (s : NodeState) (now : Nat) (cid : Json) :
    (pendingUpdate s now cid).current_mode = s.current_mode := by
  unfold pendingUpdate; split <;> rfl

lemma ring_mode_eq (s : NodeState) (now : Nat) (msg : Option Json) :
    (handle_ring_request s now msg).state.current_mode = s.current_mode := by
  cases msg with
  | none => rfl
  | some data =>
    cases hc : jLookup data "chime_id" with
    | none => simp [handle_ring_request, hc]
    | some cid =>
      cases hu : jLookup data "user" with
      | none => simp [handle_ring_request, hc, hu]
      | some u =>
        simp only [handle_ring_request, hc, hu]
        split
        · split
          · split <;> simp [pendingUpdate_mode]
          · simp [pendingUpdate_mode]
        · simp [pendingUpdate_mode]

lemma ring_wf_state (s : NodeState) (now : Nat) (data cid u : Json)
    (hc : jLookup data "chime_id" = some cid)
    (hu : jLookup data "user" = some u) :
    (handle_ring_request s now (some data)).state = pendingUpdate s now cid := by
  simp only [handle_ring_request, hc, hu]
  split
  · split
    · split <;> rfl
    · rfl
  · rfl

lemma ring_resp_or_ok (s : NodeState) (now : Nat) (msg : Option Json) :
    (handle_ring_request s now msg).failed = false ∨
    (handle_ring_request s now msg).responses = [] := by
  cases msg with
  | none => exact Or.inr rfl
  | some data =>
    cases hc : jLookup data "chime_id" with
    | none => simp [handle_ring_request, hc]
    | some cid =>
      cases hu : jLookup data "user" with
      | none => simp [handle_ring_request, hc, hu]
      | some u =>
        simp only [handle_ring_request, hc, hu]
        split
        · split
          · split
            · exact Or.inl rfl
            · exact Or.inl rfl
          · exact Or.inr rfl
        · exact Or.inl rfl

lemma ring_pending_cases (s : NodeState) (now : Nat) (msg : Option Json) :
    (handle_ring_request s now msg).state.pending_chime_id = s.pending_chime_id ∨
    s.current_mode = LcgpMode.CHILL_GRINDING := by
  by_cases hm : s.current_mode = LcgpMode.CHILL_GRINDING
  · exact Or.inr hm
  · left
    cases msg with
    | none => rfl
    | some data =>
      cases hc : jLookup data "chime_id" with
      | none => simp [handle_ring_request, hc]
      | some cid =>
        cases hu : jLookup data "user" with
        | none => simp [handle_ring_request, hc, hu]
        | some u =>
          rw [ring_wf_state s now data cid u hc hu]
          unfold pendingUpdate
          rw [if_neg hm]

lemma reachable_inv (s : NodeState) (hs : Reachable s) : NodeInv s := by
  induction hs with
  | init => exact ⟨by decide, by intro h; simp [initState, jTruthy] at h⟩
  | ring s now msg hr ih =>
    refine ⟨?_, ?_⟩
    · rw [ring_mode_eq]; exact ih.1
    · intro hT
      rw [ring_mode_eq]
      rcases ring_pending_cases s now msg with h | h
      · exact ih.2 (h ▸ hT)
      · exact h
  | button s now b hr ih =>
    unfold handle_button
    split
    · split
      · exact ⟨ih.1, by intro h; simp [jTruthy] at h⟩
      · next hfalse =>
        exact ⟨Nat.mod_lt _ (by norm_num), fun h => absurd h hfalse⟩
    · split
      · exact ih
      · exact ih
  | timeout s now hr ih =>
    unfold handle_pending_responses
    split
    · exact ⟨ih.1, by intro h; simp [jTruthy] at h⟩
    · exact ih
  | led s now hr ih =>
    unfold handle_status_led ledToggle
    repeat' split
    all_goals exact ih

lemma ring_chill_responses (s : NodeState) (now : Nat) (data cid u : Json)
    (hm : s.current_mode = LcgpMode.CHILL_GRINDING)
    (hc : jLookup data "chime_id" = some cid)
    (hu : jLookup data "user" = some u) :
    (handle_ring_request s now (some data)).responses = [] := by
  simp only [handle_ring_request, hc, hu]
  split
  · split
    · split
      · next hg => rw [hm] at hg; exact absurd hg (by decide)
      · rfl
    · rfl
  · rfl

lemma pending_empty_noop (s : NodeState) (now : Nat)
    (hp : s.pending_chime_id = Json.str "") :
    handle_pending_responses s now = (s, []) := by
  unfold handle_pending_responses
  rw [hp]
  rw [if_neg (fun h => absurd h.1 (by decide))]

lemma finalDuty_append (a b : List BuzzCmd) (d : Nat) :
    finalDuty (a ++ b) d = finalDuty b (finalDuty a d) := by
  induction a generalizing d with
  | nil => rfl
  | cons c rest ih => cases c <;> simp [finalDuty, ih]

lemma playNotes_finalDuty (l : List Json) : finalDuty (playNotes l).1 0 = 0 := by
  induction l with
  | nil => rfl
  | cons j rest ih =>
    cases hj : noteMember j with
    | error e => simp [playNotes, hj, finalDuty]
    | ok o =>
      cases o with
      | none => simpa [playNotes, hj] using ih
      | some f => simp [playNotes, hj, finalDuty_append, playTone, finalDuty, ih]

/-- C1: for every successfully parsed ring request, the gating decision that
`handle_ring_request` computes from the current mode (the `gate` function,
lines 177-200) is exactly the table of spec §4.3: `DoNotDisturb` neither
chimes nor auto-responds, `Available` and `ChillGrinding` chime without an
immediate auto-response, and `Grinding` chimes and immediately auto-responds
with kind "Positive". -/
theorem gate_decision_table :
    gate LcgpMode.DO_NOT_DISTURB = (false, false, "") ∧
    gate LcgpMode.AVAILABLE = (true, false, "") ∧
    gate LcgpMode.CHILL_GRINDING = (true, false, "") ∧
    gate LcgpMode.GRINDING = (true, true, "Positive") := by
  decide

/-- C5: a qualifying button press with no pending response advances the mode
to `(M + 1) % 4`, and four full press/release cycles return the mode to its
starting value. -/
theorem button_advance_cycles_mode (s : NodeState) (now m : Nat)
    (hb : s.button_pressed = false)
    (ht : (500 : Int) < (now : Int) - (s.last_button_press : Int))
    (hp : jTruthy s.pending_chime_id = false)
    (hm : m < 4) :
    (handle_button s now true).state.current_mode = (s.current_mode + 1) % 4 ∧
    fourAdvances m = m := by
  constructor
  · unfold handle_button
    rw [if_pos ⟨rfl, hb, ht⟩]
    rw [if_neg (by simp [hp])]
  · interval_cases m <;> decide

/-- C5 witness: from the initial state, a press at t=1000 advances
`AVAILABLE` to `(1 + 1) % 4 = CHILL_GRINDING`, and four press/release
cycles starting from mode 2 come back to mode 2. -/
theorem button_advance_cycles_mode_witness :
    (handle_button initState 1000 true).state.current_mode = (initState.current_mode + 1) % 4 ∧
    fourAdvances 2 = 2 :=
  button_advance_cycles_mode initState 1000 2 rfl (by decide) rfl (by decide)

/-- C6: when a pending response is outstanding, a qualifying button press
publishes exactly one "Positive" response for the pending chime id, clears
the pending state (empty pending id, deadline reset to 0), and leaves the
current mode unchanged. -/
theorem button_answers_pending (s : NodeState) (now : Nat)
    (hb : s.button_pressed = false)
    (ht : (500 : Int) < (now : Int) - (s.last_button_press : Int))
    (hp : jTruthy s.pending_chime_id = true) :
    (handle_button s now true).responses = [("Positive", s.pending_chime_id)] ∧
    (handle_button s now true).state.pending_chime_id = Json.str "" ∧
    (handle_button s now true).state.chime_response_deadline = 0 ∧
    (handle_button s now true).state.current_mode = s.current_mode := by
  unfold handle_button
  rw [if_pos ⟨rfl, hb, ht⟩, if_pos hp]
  exact ⟨rfl, rfl, rfl, rfl⟩

/-- C6 witness: with pending chime id "Y" outstanding, a press at t=1000
answers "Positive" for "Y", clears the pending state and keeps the mode. -/
theorem button_answers_pending_witness :
    (handle_button sPendBtn 1000 true).responses = [("Positive", Json.str "Y")] ∧
    (handle_button sPendBtn 1000 true).state.pending_chime_id = Json.str "" ∧
    (handle_button sPendBtn 1000 true).state.chime_response_deadline = 0 ∧
    (handle_button sPendBtn 1000 true).state.current_mode = sPendBtn.current_mode :=
  button_answers_pending sPendBtn 1000 rfl (by decide) rfl

/-- C8: processing any inbound MQTT message (any topic, any payload,
well-formed or not) leaves the current availability mode unchanged. -/
theorem inbound_message_preserves_mode (s : NodeState) (now : Nat)
    (topic : String) (msg : Option Json) :
    (mqtt_callback s now topic msg).state.current_mode = s.current_mode := by
  unfold mqtt_callback
  split
  · exact ring_mode_eq s now msg
  · rfl

/-- C10: whenever the pending chime id is the empty string, polling the
pending-response deadline publishes nothing and changes no state, for every
clock value and every stored deadline value. -/
theorem empty_pending_poll_is_noop (s : NodeState) (now : Nat)
    (hp : s.pending_chime_id = Json.str "") :
    handle_pending_responses s now = (s, []) :=
  pending_empty_noop s now hp

/-- C10 witness: the freshly initialised state (deadline 0) never fires the
deferred response, even at a very late clock reading. -/
theorem empty_pending_poll_is_noop_witness :
    handle_pending_responses initState 999999 = (initState, []) :=
  empty_pending_poll_is_noop initState 999999 rfl

/-- C7: a chime with an empty or absent `notes` list plays exactly the
default pattern C4/300, E4/300, G4/300, C5/500 in order; every playback that
completes normally literally ends with the `duty(0)` command; and on every
input — including one that raises mid-playback — the buzzer duty is left at
zero. -/
theorem play_chime_default_and_silence (notes failing : Json)
    (hok : (play_chime notes).2 = true) :
    play_chime (Json.arr []) =
      ([.setFreq 262, .setDuty 512, .sleep 300, .setDuty 0, .sleep 50,
        .setFreq 330, .setDuty 512, .sleep 300, .setDuty 0, .sleep 50,
        .setFreq 392, .setDuty 512, .sleep 300, .setDuty 0, .sleep 50,
        .setFreq 523, .setDuty 512, .sleep 500, .setDuty 0, .sleep 50,
        .setDuty 0], true) ∧
    (play_chime notes).1.getLast? = some (BuzzCmd.setDuty 0) ∧
    finalDuty (play_chime failing).1 0 = 0 := by
  refine ⟨rfl, ?_, ?_⟩
  · unfold play_chime at hok ⊢
    by_cases htr : jTruthy notes = true
    · rw [if_pos htr] at hok ⊢
      cases hi : jIter notes with
      | none => rw [hi] at hok; exact absurd hok (by decide)
      | some items =>
        rw [hi] at hok
        dsimp only at hok ⊢
        by_cases hr : (playNotes items).2 = true
        · rw [if_pos hr]
          exact List.getLast?_concat _
        · rw [if_neg hr] at hok
          exact absurd hok hr
    · rw [if_neg htr]
      exact List.getLast?_concat _
  · unfold play_chime
    by_cases htr : jTruthy failing = true
    · rw [if_pos htr]
      cases hi : jIter failing with
      | none => rfl
      | some items =>
        dsimp only
        by_cases hr : (playNotes items).2 = true
        · rw [if_pos hr]
          simp [finalDuty_append, finalDuty]
        · rw [if_neg hr]
          exact playNotes_finalDuty items
    · rw [if_neg htr]
      simp [finalDuty_append, finalDuty]

/-- C7 witness: an explicit-notes request for C4 ends with the duty-zero
command, and a `notes` value that raises (`notes = 5`) leaves the duty at
zero. -/
theorem play_chime_default_and_silence_witness :
    play_chime (Json.arr []) =
      ([.setFreq 262, .setDuty 512, .sleep 300, .setDuty 0, .sleep 50,
        .setFreq 330, .setDuty 512, .sleep 300, .setDuty 0, .sleep 50,
        .setFreq 392, .setDuty 512, .sleep 300, .setDuty 0, .sleep 50,
        .setFreq 523, .setDuty 512, .sleep 500, .setDuty 0, .sleep 50,
        .setDuty 0], true) ∧
    (play_chime (Json.arr [Json.str "C4"])).1.getLast? = some (BuzzCmd.setDuty 0) ∧
    finalDuty (play_chime (Json.num 5)).1 0 = 0 :=
  play_chime_default_and_silence (Json.arr [Json.str "C4"]) (Json.num 5) rfl

/-- C9: the mode starts at `AVAILABLE` (1) and in every reachable state it is
one of 0..3, so indexing the four-element `mode_names` tables of
`handle_button` and `publish_status` is always in bounds. -/
theorem mode_always_in_range (s : NodeState) (hs : Reachable s) :
    initState.current_mode = LcgpMode.AVAILABLE ∧
    s.current_mode < 4 ∧
    s.current_mode < mode_names_button.length ∧
    s.current_mode < mode_names_status.length := by
  have h4 := (reachable_inv s hs).1
  exact ⟨rfl, h4, h4, h4⟩

/-- C9 witness: the initial state itself. -/
theorem mode_always_in_range_witness :
    initState.current_mode = LcgpMode.AVAILABLE ∧
    initState.current_mode < 4 ∧
    initState.current_mode < mode_names_button.length ∧
    initState.current_mode < mode_names_status.length :=
  mode_always_in_range initState Reachable.init

/-- C2 counterexample: a ring request under `CHILL_GRINDING` whose
`chime_id` is the empty string sets the pending state and the deadline, yet
the first deadline poll after expiry publishes nothing — the empty string is
also the "no pending response" sentinel, so the truthiness guard of
`handle_pending_responses` never fires. -/
theorem chill_ring_empty_id_never_responds :
    (handle_ring_request sChill 0
      (some (Json.obj [("chime_id", Json.str ""), ("user", Json.str "u")]))).state.pending_chime_id
      = Json.str "" ∧
    (handle_ring_request sChill 0
      (some (Json.obj [("chime_id", Json.str ""), ("user", Json.str "u")]))).state.chime_response_deadline
      = 0 + 10000 ∧
    (handle_pending_responses
      (handle_ring_request sChill 0
        (some (Json.obj [("chime_id", Json.str ""), ("user", Json.str "u")]))).state 20000).2
      = [] := by
  exact ⟨rfl, rfl, rfl⟩

/-- C2 (amended): under `CHILL_GRINDING`, a well-formed ring request with a
non-empty `chime_id` X sets the pending id to X and the deadline to
now + 10000 and sends no immediate response; a deadline poll at or before
the deadline does nothing; the first poll after expiry publishes exactly one
"Positive" response for X and clears the pending state; a further poll
publishes nothing more. -/
theorem chill_ring_defers_positive_response
    (s : NodeState) (now : Nat) (X : String) (data u : Json)
    (nE n2 n3 : Nat)
    (hm : s.current_mode = LcgpMode.CHILL_GRINDING)
    (hX : X ≠ "")
    (hc : jLookup data "chime_id" = some (Json.str X))
    (hu : jLookup data "user" = some u)
    (hE : nE ≤ now + 10000)
    (h2 : now + 10000 < n2) :
    (handle_ring_request s now (some data)).state.pending_chime_id = Json.str X ∧
    (handle_ring_request s now (some data)).state.chime_response_deadline = now + 10000 ∧
    (handle_ring_request s now (some data)).responses = [] ∧
    handle_pending_responses (handle_ring_request s now (some data)).state nE
      = ((handle_ring_request s now (some data)).state, []) ∧
    (handle_pending_responses (handle_ring_request s now (some data)).state n2).2
      = [("Positive", Json.str X)] ∧
    (handle_pending_responses (handle_ring_request s now (some data)).state n2).1.pending_chime_id
      = Json.str "" ∧
    (handle_pending_responses (handle_ring_request s now (some data)).state n2).1.chime_response_deadline
      = 0 ∧
    handle_pending_responses
        (handle_pending_responses (handle_ring_request s now (some data)).state n2).1 n3
      = ((handle_pending_responses (handle_ring_request s now (some data)).state n2).1, []) := by
  have hT : jTruthy (Json.str X) = true := by simp [jTruthy, hX]
  have hst : (handle_ring_request s now (some data)).state
      = { s with pending_chime_id := Json.str X, chime_response_deadline := now + 10000 } := by
    rw [ring_wf_state s now data (Json.str X) u hc hu]
    unfold pendingUpdate
    rw [if_pos hm]
  have hfire : handle_pending_responses
      { s with pending_chime_id := Json.str X, chime_response_deadline := now + 10000 } n2
      = ({ s with pending_chime_id := Json.str "", chime_response_deadline := 0 },
         [("Positive", Json.str X)]) := by
    unfold handle_pending_responses
    dsimp only
    rw [if_pos ⟨hT, h2⟩]
  refine ⟨by rw [hst], by rw [hst],
    ring_chill_responses s now data (Json.str X) u hm hc hu, ?_, ?_, ?_, ?_, ?_⟩
  · rw [hst]
    unfold handle_pending_responses
    dsimp only
    rw [if_neg (fun h => absurd h.2 (by omega))]
  · rw [hst, hfire]
  · rw [hst, hfire]
  · rw [hst, hfire]
  · rw [hst, hfire]
    exact pending_empty_noop _ n3 rfl

/-- C2 witness: in `CHILL_GRINDING` at t=0, the request for "Y" defers a
response with deadline 10000; a poll at 10000 does nothing, the poll at
20000 publishes exactly one "Positive" for "Y" and clears the state, and a
poll at 30000 publishes nothing more. -/
theorem chill_ring_defers_positive_response_witness :
    (handle_ring_request sChill 0 (some dataY)).state.pending_chime_id = Json.str "Y" ∧
    (handle_ring_request sChill 0 (some dataY)).state.chime_response_deadline = 0 + 10000 ∧
    (handle_ring_request sChill 0 (some dataY)).responses = [] ∧
    handle_pending_responses (handle_ring_request sChill 0 (some dataY)).state 10000
      = ((handle_ring_request sChill 0 (some dataY)).state, []) ∧
    (handle_pending_responses (handle_ring_request sChill 0 (some dataY)).state 20000).2
      = [("Positive", Json.str "Y")] ∧
    (handle_pending_responses (handle_ring_request sChill 0 (some dataY)).state 20000).1.pending_chime_id
      = Json.str "" ∧
    (handle_pending_responses (handle_ring_request sChill 0 (some dataY)).state 20000).1.chime_response_deadline
      = 0 ∧
    handle_pending_responses
        (handle_pending_responses (handle_ring_request sChill 0 (some dataY)).state 20000).1 30000
      = ((handle_pending_responses (handle_ring_request sChill 0 (some dataY)).state 20000).1, []) :=
  chill_ring_defers_positive_response sChill 0 "Y" dataY (Json.str "u")
    10000 20000 30000 rfl (by decide) rfl rfl (by decide) (by decide)

/-- C3 counterexample: a ring request whose required fields parse but whose
`notes` value is the number 5 fails during handling (the `for note in notes`
loop raises `TypeError`), yet under `CHILL_GRINDING` the pending-response
state has already been overwritten before the failure — the failed handling
is not atomic. -/
theorem ring_failure_not_atomic :
    (handle_ring_request sChill 7 (some ringBadNotes)).failed = true ∧
    sChill.pending_chime_id = Json.str "" ∧
    (handle_ring_request sChill 7 (some ringBadNotes)).state.pending_chime_id = Json.str "X" ∧
    Json.str "X" ≠ Json.str "" := by
  refine ⟨rfl, rfl, rfl, ?_⟩
  intro h
  injection h with h2
  exact absurd h2 (by decide)

/-- C3 (amended): a ring-request payload that is not parseable as JSON or is
missing a required field is dropped with no effect at all (state identical,
no buzzer command, no response); any payload whose handling fails publishes
no response and leaves the mode unchanged — but a failure occurring after
the mode dispatch (e.g. an uniterable `notes` value) may already have
overwritten the pending-response state or produced chime tones. -/
theorem ring_failure_effects
    (s : NodeState) (now : Nat) (msg : Option Json)
    (hfail : (handle_ring_request s now msg).failed = true) :
    (handle_ring_request s now msg).responses = [] ∧
    (handle_ring_request s now msg).state.current_mode = s.current_mode ∧
    ((msg = none ∨ ∃ d, msg = some d ∧
        (jLookup d "chime_id" = none ∨ jLookup d "user" = none)) →
      handle_ring_request s now msg = ⟨s, [], [], true⟩) := by
  refine ⟨?_, ring_mode_eq s now msg, ?_⟩
  · rcases ring_resp_or_ok s now msg with h | h
    · rw [hfail] at h; cases h
    · exact h
  · rintro (rfl | ⟨d, rfl, hcu⟩)
    · rfl
    · rcases hcu with h1 | h1
      · simp [handle_ring_request, h1]
      · cases hc : jLookup d "chime_id" with
        | none => simp [handle_ring_request, hc]
        | some cid => simp [handle_ring_request, hc, h1]

/-- C3 witness: an unparseable payload is dropped with no response and no
mode change. -/
theorem ring_failure_effects_witness :
    (handle_ring_request initState 0 none).responses = [] ∧
    (handle_ring_request initState 0 none).state.current_mode = initState.current_mode :=
  ⟨(ring_failure_effects initState 0 none rfl).1,
   (ring_failure_effects initState 0 none rfl).2.1⟩

/-- C4: in every reachable state with a non-empty pending chime id (which
the invariant forces to be a `CHILL_GRINDING` state), handling a new
well-formed ring request overwrites the single pending slot with the new
request's `chime_id` and a fresh deadline — no queue is kept. -/
theorem ring_overwrites_pending
    (s : NodeState) (p : String) (now : Nat) (data cid u : Json)
    (hs : Reachable s)
    (hp : s.pending_chime_id = Json.str p) (hpne : p ≠ "")
    (hc : jLookup data "chime_id" = some cid)
    (hu : jLookup data "user" = some u) :
    (handle_ring_request s now (some data)).state.pending_chime_id = cid ∧
    (handle_ring_request s now (some data)).state.chime_response_deadline = now + 10000 := by
  have hT : jTruthy s.pending_chime_id = true := by rw [hp]; simp [jTruthy, hpne]
  have hm : s.current_mode = LcgpMode.CHILL_GRINDING := (reachable_inv s hs).2 hT
  rw [ring_wf_state s now data cid u hc hu]
  unfold pendingUpdate
  rw [if_pos hm]
  exact ⟨rfl, rfl⟩

/-- C4 witness: after a button press (mode `CHILL_GRINDING`) and a ring
request for "Y", a second ring request for "X" overwrites the pending id. -/
theorem ring_overwrites_pending_witness :
    (handle_ring_request sPendR 3000 (some dataX)).state.pending_chime_id = Json.str "X" ∧
    (handle_ring_request sPendR 3000 (some dataX)).state.chime_response_deadline = 3000 + 10000 :=
  ring_overwrites_pending sPendR "Y" 3000 dataX (Json.str "X") (Json.str "u")
    (Reachable.ring sBtn 2000 (some dataY) (Reachable.button initState 1000 true Reachable.init))
    rfl (by decide) rfl rfl
